import Mathlib

/-!
Shallow embedding of `lukamindo/rico_parser_go` (files `main.go` and
`rico/rico.go`).

Rates are embedded as exact rationals (`ℚ`): the Go code stores them in
`float64` fields and all claims concern exact field-wise equality, zero
checks and value propagation, none of which depends on binary rounding of
the concrete fixtures used here.

External collaborators (the HTTP transport, the goquery HTML parser and the
Telegram provider) are abstracted: a check cycle receives an `HttpResult`
describing what the fixed-URL GET produced, with a successfully parsed HTML
document abstracted to the list of rows matched by the selector
`tbody.first-table-body tr`, each row carrying the text of its
`td.flag-title` cell and the texts of its `td.currency-value` cells.
-/

deriving instance DecidableEq for Except

namespace Rico

/-- Embedding of the struct `USDRate` from `rico/rico.go`: two numeric
fields `Buy` and `Sell`. -/
structure USDRate where
  Buy : ℚ
  Sell : ℚ
deriving DecidableEq

/-- Embedding of `goquery`'s view of one `<tr>` matched by the selector
`tbody.first-table-body tr`: the text of its `td.flag-title` cell and the
texts of its `td.currency-value` cells, in document order. -/
structure TableRow where
  flagTitle : String
  currencyValues : List String
deriving DecidableEq

/-- Embedding of the body-level outcome inside a 200 response: either
`goquery.NewDocumentFromReader` fails, or it yields a document whose
selector match is `rows`. -/
inductive BodyParse where
  | parseError
  | doc (rows : List TableRow)
deriving DecidableEq

/-- Embedding of what the HTTP GET of the fixed URL produced in one cycle:
request-creation failure, transport failure of `client.Do`, or a response
with a status code and a body. -/
inductive HttpResult where
  | reqError
  | transportError
  | response (status : Nat) (body : BodyParse)
deriving DecidableEq

/-- Value of a digit list read in base 10, used by the `strconv.ParseFloat`
model. -/
def digitsToNat (l : List Char) : Nat :=
  l.foldl (fun acc c => acc * 10 + (c.toNat - 48)) 0

/-- Modelled from Go `strconv.ParseFloat` restricted to plain decimal
notation (optional sign, digits, at most one period, at least one digit):
the notation produced by the rate cells. Exotic accepted forms (exponents,
hex floats, `Inf`, `NaN`, digit-group underscores) are treated as parse
failures, and the value is exact rather than rounded to `float64`. Returns
`none` where Go returns a non-nil error (in which case the Go assignment
stores the accompanying value `0`). -/
def goParseFloatCore (l : List Char) : Option ℚ :=
  let intPart := l.takeWhile Char.isDigit
  let rest := l.dropWhile Char.isDigit
  match rest with
  | [] => if intPart.isEmpty then none else some (mkRat (digitsToNat intPart) 1)
  | '.' :: frac =>
      if frac.all Char.isDigit && !(intPart.isEmpty && frac.isEmpty) then
        some (mkRat (digitsToNat intPart * 10 ^ frac.length + digitsToNat frac) (10 ^ frac.length))
      else
        none
  | _ => none

/-- Signed entry point of the `strconv.ParseFloat` model. -/
def goParseFloat (s : String) : Option ℚ :=
  match s.data with
  | '+' :: rest => goParseFloatCore rest
  | '-' :: rest => (goParseFloatCore rest).map (fun q => -q)
  | l => goParseFloatCore l

/-- Embedding of `strings.ReplaceAll(s, ",", ".")` from `fetchCurrentRate`:
since the pattern and the replacement are single characters this is a
character map. -/
def replaceCommaWithDot (s : String) : String :=
  ⟨s.data.map (fun c => if c = ',' then '.' else c)⟩

/-- Body of the closure passed to `doc.Find(...).Each` in
`fetchCurrentRate`, at index `i`, acting on the accumulated
`(ret, log lines)` pair. For `i ≠ 0` the closure returns early; for the
first row it reads the 0th and 1st `currency-value` cell texts (an
out-of-range `Eq` selection has empty text), normalizes commas to periods,
and assigns each `ParseFloat` result to the corresponding field, logging on
failure (the failed assignment stores `0`). -/
def eachStep (i : Nat) (r : TableRow) (acc : USDRate × List String) : USDRate × List String :=
  if i ≠ 0 then acc
  else
    let buyStr := replaceCommaWithDot (r.currencyValues.getD 0 "")
    let sellStr := replaceCommaWithDot (r.currencyValues.getD 1 "")
    let buyRes :=
      match goParseFloat buyStr with
      | some v => ((v : ℚ), ([] : List String))
      | none => (0, ["Error converting buyVal"])
    let sellRes :=
      match goParseFloat sellStr with
      | some v => ((v : ℚ), ([] : List String))
      | none => (0, ["Error converting sellVal"])
    (⟨buyRes.1, sellRes.1⟩, acc.2 ++ buyRes.2 ++ sellRes.2)

/-- Embedding of the `Each` iteration: the callback is invoked on every
matched row with its index, starting at `i`. -/
def eachLoop (i : Nat) (acc : USDRate × List String) : List TableRow → USDRate × List String
  | [] => acc
  | r :: rest => eachLoop (i + 1) (eachStep i r acc) rest

/-- Result of the row-scraping part of `fetchCurrentRate` on the matched
rows: the `USDRate` left in `ret` and the `log.Printf` lines emitted for
`ParseFloat` failures. -/
def parseRows (rows : List TableRow) : USDRate × List String :=
  eachLoop 0 (⟨0, 0⟩, []) rows

/-- Embedding of `fetchCurrentRate` from `rico/rico.go` as a function of
the abstract HTTP outcome. Error strings follow the `fmt.Errorf` formats;
on success it returns the scraped rate together with the parse-failure log
lines (and, as in the source, a nil error). -/
def fetchCurrentRate : HttpResult → Except String (USDRate × List String)
  | .reqError => .error "creating request"
  | .transportError => .error "fetching URL"
  | .response status body =>
      if status ≠ 200 then .error "received non-200 response code"
      else
        match body with
        | .parseError => .error "parsing HTML"
        | .doc rows => .ok (parseRows rows)

/-- Embedding of the struct `RateChecker` (the `http.Client` and the loaded
`time.Location` are external resources and carry no state the claims
mention). -/
structure RateChecker where
  USDRate : Rico.USDRate
  botToken : String
  channelID : String
deriving DecidableEq

/-- Embedding of `NewRateChecker`: `time.LoadLocation "Asia/Tbilisi"` is an
external call whose success is the parameter `tzOk`; on failure the
constructor returns the wrapped error, otherwise a checker holding the
zero `USDRate` and the given configuration. -/
def NewRateChecker (tzOk : Bool) (botToken channelID : String) :
    Except String RateChecker :=
  if tzOk then .ok ⟨⟨0, 0⟩, botToken, channelID⟩
  else .error "failed to load timezone"

/-- Observable outcome of one `CheckForRateChange` cycle: the stored
`USDRate` after the cycle and whether `sendTelegramMessage` was invoked. -/
structure CheckOutcome where
  rate : USDRate
  sent : Bool
deriving DecidableEq

/-- Embedding of `CheckForRateChange` from `rico/rico.go`. `stored` is the
receiver's `rc.USDRate` before the cycle, `env` what the fetch produced and
`sendOk` whether `sendTelegramMessage` would succeed (a failed send is only
logged, so `sendOk` cannot influence the outcome). Every failure branch
returns instead of escaping, so the embedding is a total function. -/
def CheckForRateChange (stored : USDRate) (env : HttpResult) (sendOk : Bool) :
    CheckOutcome :=
  match fetchCurrentRate env with
  | .error _ => ⟨stored, false⟩
  | .ok (usdRate, _) =>
      if usdRate.Buy = 0 ∨ usdRate.Sell = 0 then ⟨stored, false⟩
      else if usdRate.Buy = stored.Buy ∧ usdRate.Sell = stored.Sell then ⟨stored, false⟩
      else ⟨usdRate, true⟩

/-- Stored rate reached from `stored` after a sequence of check cycles with
the given fetch outcomes and send successes. -/
def runChecks (stored : USDRate) : List (HttpResult × Bool) → USDRate
  | [] => stored
  | (env, s) :: rest => runChecks (CheckForRateChange stored env s).rate rest

/-- Invariant of the stored rate: either still the all-zero initial value
or valid on both fields. -/
def validOrZero (r : USDRate) : Prop :=
  r = ⟨0, 0⟩ ∨ (r.Buy ≠ 0 ∧ r.Sell ≠ 0)

end Rico

namespace RicoMain

/-- Embedding of `time.Minute` (a `time.Duration` in nanoseconds). -/
def timeMinute : Nat := 60 * 1000000000

/-- Embedding of the constant `interval = 1 * time.Minute` from `main.go`. -/
def interval : Nat := 1 * timeMinute

/-- Outcome of one round of the `select` in the main loop: either
`ctx.Done()` fired or the ticker delivered a tick (one tick per elapsed
`interval`). -/
inductive LoopEvent where
  | ctxDone
  | tick
deriving DecidableEq, BEq

/-- Number of check cycles run by the `for`/`select` loop of `main.go` on a
trace of select outcomes: a tick runs one full check before the next wait,
`ctx.Done()` exits the loop. -/
def loopChecks : List LoopEvent → Nat
  | [] => 0
  | .ctxDone :: _ => 0
  | .tick :: rest => loopChecks rest + 1

/-- Number of check cycles run by `main` after a successful startup: one
immediate check, then the ticker loop. -/
def mainChecks (events : List LoopEvent) : Nat := 1 + loopChecks events

/-- Outcome of the startup section of `main`: `log.Fatal` with a message,
or a running process owning the constructed checker. -/
inductive StartupOutcome where
  | fatal (msg : String)
  | started (rc : Rico.RateChecker)
deriving DecidableEq

/-- Embedding of the startup section of `main.go`: the two environment
values are checked for emptiness, then `NewRateChecker` is called and its
error is fatal. -/
def mainStartup (botToken channelID : String) (tzOk : Bool) : StartupOutcome :=
  if botToken = "" ∨ channelID = "" then
    .fatal "TELEGRAM_BOT_TOKEN and TELEGRAM_CHANNEL_ID must be set in the environment"
  else
    match Rico.NewRateChecker tzOk botToken channelID with
    | .error e => .fatal ("Failed to create RateChecker: " ++ e)
    | .ok _ => .started ⟨⟨0, 0⟩, botToken, channelID⟩

/-- Number of check cycles the whole process runs: zero when startup is
fatal, otherwise the loop count. -/
def mainRun (botToken channelID : String) (tzOk : Bool)
    (events : List LoopEvent) : Nat :=
  match mainStartup botToken channelID tzOk with
  | .fatal _ => 0
  | .started _ => mainChecks events

end RicoMain

namespace Rico

/-- Every invocation of the `Each` callback after the first carries a
positive index, so the early `return` for `i ≠ 0` leaves the accumulator
untouched. -/
theorem eachLoop_of_pos (rows : List TableRow) :
    ∀ i acc, 0 < i → eachLoop i acc rows = acc := by
  induction rows with
  | nil => intro i acc _; rfl
  | cons r rest ih =>
      intro i acc h
      show eachLoop (i + 1) (eachStep i r acc) rest = acc
      have hi : i ≠ 0 := by omega
      rw [eachStep, if_pos hi]
      exact ih (i + 1) acc (by omega)

/-- Scraping a non-empty row list is exactly the callback body on the first
row. -/
theorem parseRows_cons (r : TableRow) (rest : List TableRow) :
    parseRows (r :: rest) = eachStep 0 r (⟨0, 0⟩, []) := by
  show eachLoop 1 (eachStep 0 r (⟨0, 0⟩, [])) rest = _
  exact eachLoop_of_pos rest 1 _ (by omega)

/-- One check cycle either keeps the stored rate or stores a rate with both
fields non-zero. -/
theorem checkRate_stored_or_valid (stored : USDRate) (env : HttpResult) (s : Bool) :
    (CheckForRateChange stored env s).rate = stored ∨
      ((CheckForRateChange stored env s).rate.Buy ≠ 0 ∧
        (CheckForRateChange stored env s).rate.Sell ≠ 0) := by
  unfold CheckForRateChange
  rcases hf : fetchCurrentRate env with e | p
  · simp
  · obtain ⟨r, logs⟩ := p
    by_cases hz : r.Buy = 0 ∨ r.Sell = 0
    · simp [hz]
    · push_neg at hz
      by_cases heq : r.Buy = stored.Buy ∧ r.Sell = stored.Sell
      · simp [heq]
      · right
        simp [hz.1, hz.2, heq]

/-- The zero-or-valid invariant is preserved by any sequence of check
cycles. -/
theorem validOrZero_runChecks (inputs : List (HttpResult × Bool)) :
    ∀ stored, validOrZero stored → validOrZero (runChecks stored inputs) := by
  induction inputs with
  | nil => intro stored h; exact h
  | cons p rest ih =>
      intro stored h
      obtain ⟨env, s⟩ := p
      show validOrZero (runChecks (CheckForRateChange stored env s).rate rest)
      apply ih
      rcases checkRate_stored_or_valid stored env s with heq | hv
      · rw [heq]; exact h
      · exact Or.inr hv

/-- A checker built by `NewRateChecker` starts from the zero rate. -/
theorem newRateChecker_zero (tzOk : Bool) (bot chan : String) (rc : RateChecker)
    (hrc : NewRateChecker tzOk bot chan = .ok rc) : rc.USDRate = ⟨0, 0⟩ := by
  cases tzOk with
  | false => simp [NewRateChecker] at hrc
  | true =>
      simp only [NewRateChecker, if_pos, Except.ok.injEq] at hrc
      rw [← hrc]

end Rico

namespace Rico

/-- C1: when the fetched valid rate differs from the stored rate, the
stored rate is replaced with the new value independently of whether the
notification send succeeds (no rollback), and a subsequent fetch of the
identical values triggers no notification. -/
theorem checkCycle_updates_stored_rate_regardless_of_send
    (stored r : USDRate) (logs : List String) (env : HttpResult)
    (hf : fetchCurrentRate env = .ok (r, logs))
    (hb : r.Buy ≠ 0) (hs : r.Sell ≠ 0)
    (hdiff : ¬(r.Buy = stored.Buy ∧ r.Sell = stored.Sell)) :
    (∀ sendOk, (CheckForRateChange stored env sendOk).rate = r) ∧
    (∀ sendOk env2 logs2 sendOk2, fetchCurrentRate env2 = .ok (r, logs2) →
      (CheckForRateChange (CheckForRateChange stored env sendOk).rate env2 sendOk2).sent
        = false) := by
  have hmain : ∀ sendOk, CheckForRateChange stored env sendOk = ⟨r, true⟩ := by
    intro sendOk
    unfold CheckForRateChange
    rw [hf]
    simp [hb, hs, hdiff]
  refine ⟨fun sendOk => by rw [hmain sendOk], ?_⟩
  intro sendOk env2 logs2 sendOk2 hf2
  rw [hmain sendOk]
  unfold CheckForRateChange
  rw [hf2]
  simp [hb, hs]

/-- Witness for C1: starting from the zero state, a fixture giving
buy 2.7000 and sell 2.75 updates the stored rate even with a failing send,
and a second identical fetch sends nothing. -/
theorem checkCycle_updates_stored_rate_regardless_of_send_witness :
    (CheckForRateChange ⟨0, 0⟩
        (.response 200 (.doc [⟨"USD", ["2,7000", "2.75"]⟩])) false).rate =
      ⟨mkRat 27 10, mkRat 11 4⟩ ∧
    (CheckForRateChange
        (CheckForRateChange ⟨0, 0⟩
          (.response 200 (.doc [⟨"USD", ["2,7000", "2.75"]⟩])) false).rate
        (.response 200 (.doc [⟨"USD", ["2,7000", "2.75"]⟩])) true).sent = false := by
  have h := checkCycle_updates_stored_rate_regardless_of_send ⟨0, 0⟩
    ⟨mkRat 27 10, mkRat 11 4⟩ []
    (.response 200 (.doc [⟨"USD", ["2,7000", "2.75"]⟩]))
    (by decide) (by decide) (by decide) (by decide)
  exact ⟨h.1 false, h.2 false _ [] true (by decide)⟩

/-- C2: a cycle whose fetched rate has a zero field sends nothing and
leaves the stored rate unchanged. -/
theorem checkCycle_zero_rate_skips_send_and_mutation
    (stored r : USDRate) (logs : List String) (env : HttpResult) (sendOk : Bool)
    (hf : fetchCurrentRate env = .ok (r, logs))
    (hz : r.Buy = 0 ∨ r.Sell = 0) :
    CheckForRateChange stored env sendOk = ⟨stored, false⟩ := by
  unfold CheckForRateChange
  rw [hf]
  simp [hz]

/-- Witness for C2: an empty selector match parses to the zero rate and the
cycle leaves a previously stored rate untouched. -/
theorem checkCycle_zero_rate_skips_send_and_mutation_witness :
    CheckForRateChange ⟨mkRat 1 1, mkRat 2 1⟩ (.response 200 (.doc [])) true =
      ⟨⟨mkRat 1 1, mkRat 2 1⟩, false⟩ :=
  checkCycle_zero_rate_skips_send_and_mutation _ ⟨0, 0⟩ [] _ true (by decide)
    (Or.inl rfl)

/-- C3: a fetched valid rate equal to the stored rate on both fields is a
no-op, and equality on both fields is required: any field-wise difference
counts as a change and triggers a send. -/
theorem checkCycle_equal_rate_noop_and_any_field_change_notifies
    (stored r : USDRate) (logs : List String) (env : HttpResult) (sendOk : Bool)
    (hf : fetchCurrentRate env = .ok (r, logs))
    (hb : r.Buy ≠ 0) (hs : r.Sell ≠ 0) :
    ((r.Buy = stored.Buy ∧ r.Sell = stored.Sell) →
        CheckForRateChange stored env sendOk = ⟨stored, false⟩) ∧
    (¬(r.Buy = stored.Buy ∧ r.Sell = stored.Sell) →
        CheckForRateChange stored env sendOk = ⟨r, true⟩) := by
  constructor <;> intro h <;> unfold CheckForRateChange <;> rw [hf] <;>
    simp [hb, hs, h]

/-- Witness for C3: the same fixture is a no-op against an equal stored
rate, and a stored rate differing only in the sell field is replaced with a
send. -/
theorem checkCycle_equal_rate_noop_and_any_field_change_notifies_witness :
    CheckForRateChange ⟨mkRat 27 10, mkRat 11 4⟩
        (.response 200 (.doc [⟨"USD", ["2,7000", "2.75"]⟩])) true =
      ⟨⟨mkRat 27 10, mkRat 11 4⟩, false⟩ ∧
    CheckForRateChange ⟨mkRat 27 10, mkRat 3 1⟩
        (.response 200 (.doc [⟨"USD", ["2,7000", "2.75"]⟩])) true =
      ⟨⟨mkRat 27 10, mkRat 11 4⟩, true⟩ := by
  have h1 := checkCycle_equal_rate_noop_and_any_field_change_notifies
    ⟨mkRat 27 10, mkRat 11 4⟩ ⟨mkRat 27 10, mkRat 11 4⟩ []
    (.response 200 (.doc [⟨"USD", ["2,7000", "2.75"]⟩])) true
    (by decide) (by decide) (by decide)
  have h2 := checkCycle_equal_rate_noop_and_any_field_change_notifies
    ⟨mkRat 27 10, mkRat 3 1⟩ ⟨mkRat 27 10, mkRat 11 4⟩ []
    (.response 200 (.doc [⟨"USD", ["2,7000", "2.75"]⟩])) true
    (by decide) (by decide) (by decide)
  exact ⟨h1.1 (by decide), h2.2 (by decide)⟩

/-- C4: from the initial zero state of a freshly constructed checker, the
first cycle whose fetch yields a rate with both fields non-zero always
detects a change, stores the fetched rate and attempts exactly one
notification. -/
theorem first_valid_fetch_notifies
    (tzOk : Bool) (bot chan : String) (rc : RateChecker)
    (env : HttpResult) (r : USDRate) (logs : List String) (sendOk : Bool)
    (hrc : NewRateChecker tzOk bot chan = .ok rc)
    (hf : fetchCurrentRate env = .ok (r, logs))
    (hb : r.Buy ≠ 0) (hs : r.Sell ≠ 0) :
    CheckForRateChange rc.USDRate env sendOk = ⟨r, true⟩ := by
  rw [newRateChecker_zero tzOk bot chan rc hrc]
  unfold CheckForRateChange
  rw [hf]
  have hdiff : ¬(r.Buy = (⟨0, 0⟩ : USDRate).Buy ∧ r.Sell = (⟨0, 0⟩ : USDRate).Sell) :=
    fun hc => hb hc.1
  simp [hb, hs, hdiff]

/-- Witness for C4: a fresh checker notifies on the first valid fixture. -/
theorem first_valid_fetch_notifies_witness :
    CheckForRateChange (⟨⟨0, 0⟩, "t", "c"⟩ : RateChecker).USDRate
        (.response 200 (.doc [⟨"USD", ["2,7000", "2.75"]⟩])) true =
      ⟨⟨mkRat 27 10, mkRat 11 4⟩, true⟩ :=
  first_valid_fetch_notifies true "t" "c" ⟨⟨0, 0⟩, "t", "c"⟩
    (.response 200 (.doc [⟨"USD", ["2,7000", "2.75"]⟩]))
    ⟨mkRat 27 10, mkRat 11 4⟩ [] true
    (by decide) (by decide) (by decide) (by decide)

/-- C5: every error outcome of the fetch (request creation, transport, or a
non-200 status) aborts the cycle with the stored rate unchanged and no send
attempted; request creation errors, transport errors and every non-200
status indeed produce an error outcome. -/
theorem fetch_error_aborts_cycle_unchanged
    (stored : USDRate) (env : HttpResult) (sendOk : Bool) :
    (∀ e, fetchCurrentRate env = .error e →
        CheckForRateChange stored env sendOk = ⟨stored, false⟩) ∧
    (∃ e, fetchCurrentRate .reqError = .error e) ∧
    (∃ e, fetchCurrentRate .transportError = .error e) ∧
    (∀ status body, status ≠ 200 →
        ∃ e, fetchCurrentRate (.response status body) = .error e) := by
  refine ⟨?_, ⟨_, rfl⟩, ⟨_, rfl⟩, ?_⟩
  · intro e he
    unfold CheckForRateChange
    rw [he]
  · intro status body hst
    refine ⟨"received non-200 response code", ?_⟩
    show (if status ≠ 200 then _ else _) = _
    rw [if_pos hst]

/-- Witness for C5: a request-creation failure leaves a stored rate
untouched and sends nothing. -/
theorem fetch_error_aborts_cycle_unchanged_witness :
    CheckForRateChange ⟨mkRat 1 1, mkRat 2 1⟩ .reqError true =
      ⟨⟨mkRat 1 1, mkRat 2 1⟩, false⟩ :=
  (fetch_error_aborts_cycle_unchanged ⟨mkRat 1 1, mkRat 2 1⟩ .reqError true).1
    "creating request" rfl

end Rico

namespace Rico

/-- C6: only the first matched row is parsed, with commas in its buy and
sell cell texts normalized to periods before numeric parsing; when both
normalized texts parse, the scraped rate carries exactly those values with
no failure log, when either fails that field is left at its zero default
with the failure logged, and in all cases the fetch still returns the
scraped rate with a nil error. -/
theorem first_row_parse_normalized_values_or_zero_default
    (r : TableRow) (rest : List TableRow) :
    (∀ b s, goParseFloat (replaceCommaWithDot (r.currencyValues.getD 0 "")) = some b →
        goParseFloat (replaceCommaWithDot (r.currencyValues.getD 1 "")) = some s →
        parseRows (r :: rest) = (⟨b, s⟩, [])) ∧
    (goParseFloat (replaceCommaWithDot (r.currencyValues.getD 0 "")) = none →
        (parseRows (r :: rest)).1.Buy = 0 ∧
        "Error converting buyVal" ∈ (parseRows (r :: rest)).2) ∧
    (goParseFloat (replaceCommaWithDot (r.currencyValues.getD 1 "")) = none →
        (parseRows (r :: rest)).1.Sell = 0 ∧
        "Error converting sellVal" ∈ (parseRows (r :: rest)).2) ∧
    fetchCurrentRate (.response 200 (.doc (r :: rest))) = .ok (parseRows (r :: rest)) := by
  refine ⟨?_, ?_, ?_, rfl⟩
  · intro b s hbp hsp
    rw [parseRows_cons]
    unfold eachStep
    simp only [hbp, hsp]
    simp
  · intro hbn
    rw [parseRows_cons]
    unfold eachStep
    rcases hsp : goParseFloat (replaceCommaWithDot (r.currencyValues.getD 1 "")) with _ | v <;>
      simp only [hbn, hsp] <;> simp
  · intro hsn
    rw [parseRows_cons]
    unfold eachStep
    rcases hbp : goParseFloat (replaceCommaWithDot (r.currencyValues.getD 0 "")) with _ | v <;>
      simp only [hbp, hsn] <;> simp

/-- Witness for C6: the fixture with a comma cell parses to the normalized
values with no log, and a non-numeric buy cell leaves the buy field at zero
with the failure logged. -/
theorem first_row_parse_normalized_values_or_zero_default_witness :
    parseRows [⟨"USD", ["2,7000", "2.75"]⟩] = (⟨mkRat 27 10, mkRat 11 4⟩, []) ∧
    ((parseRows [⟨"USD", ["abc", "2.75"]⟩]).1.Buy = 0 ∧
      "Error converting buyVal" ∈ (parseRows [⟨"USD", ["abc", "2.75"]⟩]).2) := by
  refine ⟨(first_row_parse_normalized_values_or_zero_default ⟨"USD", ["2,7000", "2.75"]⟩ []).1
    (mkRat 27 10) (mkRat 11 4) (by decide) (by decide), ?_⟩
  exact (first_row_parse_normalized_values_or_zero_default ⟨"USD", ["abc", "2.75"]⟩ []).2.1
    (by decide)

/-- C9: starting from a freshly constructed checker, after any sequence of
check cycles the stored rate is either still the all-zero initial rate or
has both fields non-zero; no reachable state has exactly one zero field. -/
theorem stored_rate_always_zero_or_fully_valid
    (tzOk : Bool) (bot chan : String) (rc : RateChecker)
    (inputs : List (HttpResult × Bool))
    (hrc : NewRateChecker tzOk bot chan = .ok rc) :
    validOrZero (runChecks rc.USDRate inputs) := by
  rw [newRateChecker_zero tzOk bot chan rc hrc]
  exact validOrZero_runChecks inputs ⟨0, 0⟩ (Or.inl rfl)

/-- Witness for C9: a fresh checker stays zero-or-valid through a valid
fetch followed by a failed fetch. -/
theorem stored_rate_always_zero_or_fully_valid_witness :
    validOrZero (runChecks (⟨⟨0, 0⟩, "t", "c"⟩ : RateChecker).USDRate
      [(.response 200 (.doc [⟨"USD", ["2,7000", "2.75"]⟩]), true), (.reqError, false)]) :=
  stored_rate_always_zero_or_fully_valid true "t" "c" ⟨⟨0, 0⟩, "t", "c"⟩
    [(.response 200 (.doc [⟨"USD", ["2,7000", "2.75"]⟩]), true), (.reqError, false)]
    (by decide)

/-- C10: a 200 response that parses as HTML but matches no row under the
table selector makes `fetchCurrentRate` return the zero rate with a nil
error and no parse log, and the cycle is then aborted by the downstream
zero-rate guard with nothing sent and the stored rate unchanged. -/
theorem empty_selector_match_yields_zero_rate_nil_error
    (stored : USDRate) (sendOk : Bool) :
    fetchCurrentRate (.response 200 (.doc [])) = .ok (⟨0, 0⟩, []) ∧
    CheckForRateChange stored (.response 200 (.doc [])) sendOk = ⟨stored, false⟩ := by
  constructor
  · rfl
  · unfold CheckForRateChange
    simp [fetchCurrentRate, parseRows, eachLoop]

end Rico

namespace RicoMain

/-- C7: the process performs one check immediately at startup and then one
per ticker event (one tick per elapsed interval), cycles are consumed
strictly in trace order, events after the first observed cancellation
contribute no checks, and the poll interval is one minute. -/
theorem scheduler_immediate_then_per_tick_until_ctxDone
    (events pre post : List LoopEvent) :
    mainChecks events = 1 + (events.takeWhile (fun e => e == LoopEvent.tick)).length ∧
    mainChecks (pre ++ LoopEvent.ctxDone :: post) = mainChecks (pre ++ [LoopEvent.ctxDone]) ∧
    interval = 60 * 1000000000 := by
  refine ⟨?_, ?_, rfl⟩
  · unfold mainChecks
    congr 1
    induction events with
    | nil => rfl
    | cons e rest ih =>
        cases e with
        | ctxDone => rfl
        | tick =>
            simp [loopChecks, List.takeWhile_cons, ih,
              show (LoopEvent.tick == LoopEvent.tick) = true from rfl]
  · unfold mainChecks
    congr 1
    induction pre with
    | nil => rfl
    | cons e rest ih =>
        cases e with
        | ctxDone => rfl
        | tick => simpa [loopChecks] using ih

/-- C8: with either environment value empty the process dies at startup
with the fatal message and runs zero check cycles; with both present but
the timezone not loadable it dies from the constructor error, again with
zero cycles; with both present and the timezone loadable `NewRateChecker`
succeeds and the process starts with the constructed checker. -/
theorem startup_fail_fast_or_checker_ok
    (bot chan : String) (tzOk : Bool) (events : List LoopEvent) :
    ((bot = "" ∨ chan = "") →
        mainStartup bot chan tzOk =
          .fatal "TELEGRAM_BOT_TOKEN and TELEGRAM_CHANNEL_ID must be set in the environment" ∧
        mainRun bot chan tzOk events = 0) ∧
    (bot ≠ "" → chan ≠ "" → tzOk = false →
        mainStartup bot chan tzOk =
          .fatal "Failed to create RateChecker: failed to load timezone" ∧
        mainRun bot chan tzOk events = 0) ∧
    (bot ≠ "" → chan ≠ "" → tzOk = true →
        Rico.NewRateChecker tzOk bot chan = .ok ⟨⟨0, 0⟩, bot, chan⟩ ∧
        mainStartup bot chan tzOk = .started ⟨⟨0, 0⟩, bot, chan⟩) := by
  refine ⟨?_, ?_, ?_⟩
  · intro h
    have hs : mainStartup bot chan tzOk =
        .fatal "TELEGRAM_BOT_TOKEN and TELEGRAM_CHANNEL_ID must be set in the environment" := by
      unfold mainStartup
      rw [if_pos h]
    exact ⟨hs, by unfold mainRun; rw [hs]⟩
  · intro hb hc ht
    subst ht
    have hne : ¬(bot = "" ∨ chan = "") := by tauto
    have hs : mainStartup bot chan false =
        .fatal "Failed to create RateChecker: failed to load timezone" := by
      unfold mainStartup
      rw [if_neg hne]
      rfl
    exact ⟨hs, by unfold mainRun; rw [hs]⟩
  · intro hb hc ht
    subst ht
    have hne : ¬(bot = "" ∨ chan = "") := by tauto
    refine ⟨rfl, ?_⟩
    unfold mainStartup
    rw [if_neg hne]
    rfl

/-- Witness for C8: a missing token, a failing timezone load and a fully
configured startup each behave as stated. -/
theorem startup_fail_fast_or_checker_ok_witness :
    (mainStartup "" "c" true =
        .fatal "TELEGRAM_BOT_TOKEN and TELEGRAM_CHANNEL_ID must be set in the environment" ∧
      mainRun "" "c" true [] = 0) ∧
    (mainStartup "t" "c" false =
        .fatal "Failed to create RateChecker: failed to load timezone" ∧
      mainRun "t" "c" false [] = 0) ∧
    (Rico.NewRateChecker true "t" "c" = .ok ⟨⟨0, 0⟩, "t", "c"⟩ ∧
      mainStartup "t" "c" true = .started ⟨⟨0, 0⟩, "t", "c"⟩) := by
  refine ⟨(startup_fail_fast_or_checker_ok "" "c" true []).1 (Or.inl rfl), ?_, ?_⟩
  · exact (startup_fail_fast_or_checker_ok "t" "c" false []).2.1 (by decide) (by decide) rfl
  · exact (startup_fail_fast_or_checker_ok "t" "c" true []).2.2 (by decide) (by decide) rfl

end RicoMain
